import Mathlib

/-!
# Boot sequencer of `hello_world_main.c`

A shallow embedding of `app_main` (src/Firmware/hello_world/main/hello_world_main.c).
The function is a straight line of calls into vendor libraries with one branch and
one loop.  It is modelled as a function from the build-time constants it reads
(`Config`) and the answers of the collaborators it queries (`Env`) to the ordered
list of calls it makes (`List Event`).
-/

namespace HelloWorld

/-! ## Vendor types used by the source -/

/-- Enumeration `gpio_int_type_t` of the vendor GPIO header. -/
inductive gpio_int_type_t
  | GPIO_INTR_DISABLE
  | GPIO_INTR_POSEDGE
  | GPIO_INTR_NEGEDGE
  | GPIO_INTR_ANYEDGE
  | GPIO_INTR_LOW_LEVEL
  | GPIO_INTR_HIGH_LEVEL
  deriving DecidableEq, Repr

/-- Enumeration `gpio_mode_t` of the vendor GPIO header. -/
inductive gpio_mode_t
  | GPIO_MODE_DISABLE
  | GPIO_MODE_INPUT
  | GPIO_MODE_OUTPUT
  | GPIO_MODE_OUTPUT_OD
  | GPIO_MODE_INPUT_OUTPUT_OD
  | GPIO_MODE_INPUT_OUTPUT
  deriving DecidableEq, Repr

/-- Enumeration `gpio_pulldown_t` of the vendor GPIO header. -/
inductive gpio_pulldown_t
  | GPIO_PULLDOWN_DISABLE
  | GPIO_PULLDOWN_ENABLE
  deriving DecidableEq, Repr

/-- Enumeration `gpio_pullup_t` of the vendor GPIO header. -/
inductive gpio_pullup_t
  | GPIO_PULLUP_DISABLE
  | GPIO_PULLUP_ENABLE
  deriving DecidableEq, Repr

/-- Record `gpio_config_t`, with the five fields `app_main` assigns (lines 24-28). -/
structure gpio_config_t where
  intr_type : gpio_int_type_t
  mode : gpio_mode_t
  pin_bit_mask : Nat
  pull_down_en : gpio_pulldown_t
  pull_up_en : gpio_pullup_t
  deriving DecidableEq, Repr

/-- Record `esp_chip_info_t`, with the three fields `app_main` reads.  The fields are
unsigned machine integers; their values are kept as natural numbers. -/
structure esp_chip_info_t where
  features : Nat
  revision : Nat
  cores : Nat
  deriving DecidableEq, Repr

/-- Build-time constants that `app_main` reads from headers outside the repository
(`sdkconfig.h`, `esp_chip_info.h`, `esp_err.h`, the FreeRTOS port).  Their values are
not in the source, so they are parameters of the model. -/
structure Config where
  CONFIG_IDF_TARGET : String
  CHIP_FEATURE_EMB_FLASH : Nat
  CHIP_FEATURE_WIFI_BGN : Nat
  CHIP_FEATURE_BLE : Nat
  CHIP_FEATURE_BT : Nat
  CHIP_FEATURE_IEEE802154 : Nat
  ESP_OK : Int
  portTICK_PERIOD_MS : Nat

/-- Answers of the collaborators that `app_main` queries: the record filled in by
`esp_chip_info`, the status returned by `esp_flash_get_size` and the byte count it
stores through its out pointer, and the value of `esp_get_minimum_free_heap_size`. -/
structure Env where
  chip_info : esp_chip_info_t
  flash_err : Int
  flash_size : Nat
  min_free_heap : Nat

/-! ## Machine integers -/

/-- Value of a natural number stored in a 32-bit unsigned variable. -/
def u32 (x : Nat) : Nat := x % 2 ^ 32

/-- Value of a natural number stored in a 64-bit unsigned variable. -/
def u64 (x : Nat) : Nat := x % 2 ^ 64

/-- Reading of a 32-bit pattern as a signed `int` (two's complement). -/
def toInt32 (x : Nat) : Int :=
  if x % 2 ^ 32 < 2 ^ 31 then ((x % 2 ^ 32 : Nat) : Int) else ((x % 2 ^ 32 : Nat) : Int) - 2 ^ 32

/-! ## Console output -/

/-- Argument of a `printf` call, tagged with its C type after default promotion. -/
inductive Arg
  | str (s : String)
  | int (v : Int)
  | unsigned (v : Nat)
  | uint32 (v : Nat)
  deriving DecidableEq, Repr

/-- Conversion macro `PRIu32` of the C library header `inttypes.h`, which is not part of the
repository: the `printf` conversion for a `uint32_t`, a long unsigned decimal on this
32-bit target. -/
def PRIu32 : String := "lu"

/-- Text produced by the `%d` conversion: a signed decimal.  An `unsigned` argument has
the width of `int` and is read as one. -/
def conv_d : Arg → Option (List Char)
  | Arg.int v => some (toString v).toList
  | Arg.unsigned v => some (toString (toInt32 v)).toList
  | _ => none

/-- Text produced by the `%lu` conversion: an unsigned decimal. -/
def conv_lu : Arg → Option (List Char)
  | Arg.uint32 v => some (toString (u32 v)).toList
  | _ => none

/-- Text produced by the `%s` conversion: the string itself. -/
def conv_s : Arg → Option (List Char)
  | Arg.str s => some s.toList
  | _ => none

/-- Text written by the C library `printf` for the three conversions the source uses
(`%s`, `%d` and `%lu`); every other character of the format is copied.  A conversion
with no argument, or with one of the wrong type, has no defined output (`none`). -/
def format : List Char → List Arg → Option (List Char)
  | [], _ => some []
  | '%' :: 's' :: rest, args =>
    match args with
    | a :: args => do
      let t ← conv_s a
      let r ← format rest args
      pure (t ++ r)
    | [] => none
  | '%' :: 'd' :: rest, args =>
    match args with
    | a :: args => do
      let t ← conv_d a
      let r ← format rest args
      pure (t ++ r)
    | [] => none
  | '%' :: 'l' :: 'u' :: rest, args =>
    match args with
    | a :: args => do
      let t ← conv_lu a
      let r ← format rest args
      pure (t ++ r)
    | [] => none
  | c :: rest, args => do
    let r ← format rest args
    pure (c :: r)

/-! ## Trace of `app_main` -/

/-- One call made by `app_main`, with the arguments passed. -/
inductive Event
  | gpio_config (io_conf : gpio_config_t)
  | printf (fmt : String) (args : List Arg)
  | esp_chip_info
  | esp_flash_get_size
  | esp_get_minimum_free_heap_size
  | gpio_set_level (gpio_num : Nat) (level : Nat)
  | vTaskDelay (ticks : Nat)
  | fflush
  | esp_restart
  deriving DecidableEq, Repr

/-- Text a trace event writes to the console: the formatted text of a `printf`, nothing
for every other call. -/
def Event.text : Event → Option String
  | Event.printf fmt args => (format fmt.toList args).map String.mk
  | _ => some ""

/-- Enumerator `GPIO_NUM_25` of the vendor type `gpio_num_t`. -/
def GPIO_NUM_25 : Nat := 25

/-- Source line 18: `#define NET_LED GPIO_NUM_25`. -/
def NET_LED : Nat := GPIO_NUM_25

/-- Source lines 60-64: the body of the loop, run with the counter at `i`. -/
def loop_body (cfg : Config) (i : Int) : List Event :=
  [ Event.printf "Restarting in %d seconds...\n" [Arg.int i],
    Event.gpio_set_level NET_LED 1,
    Event.vTaskDelay (u32 (500 / cfg.portTICK_PERIOD_MS)),
    Event.gpio_set_level NET_LED 0,
    Event.vTaskDelay (u32 (500 / cfg.portTICK_PERIOD_MS)) ]

/-- Source lines 58-65: the loop `for (int i = 10; i >= 0; i--)`, entered with the
counter at `i`.  The body runs while `i >= 0`, then the counter is decremented. -/
def app_main_loop (cfg : Config) (i : Int) : List Event :=
  if i ≥ 0 then loop_body cfg i ++ app_main_loop cfg (i - 1) else []
termination_by (i + 1).toNat
decreasing_by omega

/-- Source lines 22-47: pin configuration, greeting, chip descriptor and revision lines,
and the call of the flash-size query whose status the branch tests. -/
def app_main_startup (cfg : Config) (env : Env) : List Event :=
  let io_conf : gpio_config_t :=
    { intr_type := gpio_int_type_t.GPIO_INTR_DISABLE
      mode := gpio_mode_t.GPIO_MODE_OUTPUT
      pin_bit_mask := u64 (1 <<< NET_LED)
      pull_down_en := gpio_pulldown_t.GPIO_PULLDOWN_DISABLE
      pull_up_en := gpio_pullup_t.GPIO_PULLUP_DISABLE }
  let chip_info := env.chip_info
  let major_rev := u32 (chip_info.revision / 100)
  let minor_rev := u32 (chip_info.revision % 100)
  [ Event.gpio_config io_conf,
    Event.printf "Hello world!\n" [],
    Event.esp_chip_info,
    Event.printf "This is %s chip with %d CPU core(s), %s%s%s%s, "
      [ Arg.str cfg.CONFIG_IDF_TARGET,
        Arg.int chip_info.cores,
        Arg.str (if chip_info.features &&& cfg.CHIP_FEATURE_WIFI_BGN ≠ 0 then "WiFi/" else ""),
        Arg.str (if chip_info.features &&& cfg.CHIP_FEATURE_BT ≠ 0 then "BT" else ""),
        Arg.str (if chip_info.features &&& cfg.CHIP_FEATURE_BLE ≠ 0 then "BLE" else ""),
        Arg.str (if chip_info.features &&& cfg.CHIP_FEATURE_IEEE802154 ≠ 0
          then ", 802.15.4 (Zigbee/Thread)" else "") ],
    Event.printf "silicon revision v%d.%d, " [Arg.unsigned major_rev, Arg.unsigned minor_rev],
    Event.esp_flash_get_size ]

/-- Source lines 53-56: the flash-size line and the heap line, printed once the
flash-size query has succeeded. -/
def app_main_report (cfg : Config) (env : Env) : List Event :=
  let chip_info := env.chip_info
  let flash_size := u32 env.flash_size
  [ Event.printf ("%" ++ PRIu32 ++ "MB %s flash\n")
      [ Arg.uint32 (flash_size / u32 (1024 * 1024)),
        Arg.str (if chip_info.features &&& cfg.CHIP_FEATURE_EMB_FLASH ≠ 0
          then "embedded" else "external") ],
    Event.esp_get_minimum_free_heap_size,
    Event.printf ("Minimum free heap size: %" ++ PRIu32 ++ " bytes\n")
      [ Arg.uint32 env.min_free_heap ] ]

/-- Source lines 20-69: `app_main`, as the list of calls it makes in order.  The early
`return` of line 50 ends the trace after the failure message. -/
def app_main (cfg : Config) (env : Env) : List Event :=
  app_main_startup cfg env ++
  if env.flash_err ≠ cfg.ESP_OK then
    [ Event.printf "Get flash size failed" [] ]
  else
    app_main_report cfg env
    ++ app_main_loop cfg 10
    ++ [ Event.printf "Restarting now.\n" [],
         Event.fflush,
         Event.esp_restart ]

/-! ## A concrete configuration and environment -/

/-- Sample values of the build-time constants: target `esp32`, feature masks at bits
0, 1, 4, 5 and 6, status `ESP_OK` zero, a tick period of 10 ms. -/
def sample_config : Config :=
  { CONFIG_IDF_TARGET := "esp32"
    CHIP_FEATURE_EMB_FLASH := 2 ^ 0
    CHIP_FEATURE_WIFI_BGN := 2 ^ 1
    CHIP_FEATURE_BLE := 2 ^ 4
    CHIP_FEATURE_BT := 2 ^ 5
    CHIP_FEATURE_IEEE802154 := 2 ^ 6
    ESP_OK := 0
    portTICK_PERIOD_MS := 10 }

/-- Sample answers of the collaborators: a two-core chip with only the BLE feature,
revision 102, a successful flash query reporting 4 MiB. -/
def sample_env : Env :=
  { chip_info := { features := 2 ^ 4, revision := 102, cores := 2 }
    flash_err := 0
    flash_size := 4 * 1024 * 1024
    min_free_heap := 12345 }

/-- Sample answers as `sample_env`, with a failing flash query. -/
def sample_env_fail : Env :=
  { chip_info := { features := 2 ^ 4, revision := 102, cores := 2 }
    flash_err := 258
    flash_size := 0
    min_free_heap := 12345 }

/-! ## Observations on a trace -/

/-- The (pin, level) pairs of the `gpio_set_level` calls of a trace, in order. -/
def writes : List Event → List (Nat × Nat)
  | [] => []
  | Event.gpio_set_level p l :: es => (p, l) :: writes es
  | _ :: es => writes es

/-- The tick counts of the `vTaskDelay` calls of a trace, in order. -/
def delays : List Event → List Nat
  | [] => []
  | Event.vTaskDelay t :: es => t :: delays es
  | _ :: es => delays es

/-- The counter values printed by the countdown line of the loop (source line 60), in
order. -/
def countdown : List Event → List Int
  | [] => []
  | Event.printf fmt [Arg.int v] :: es =>
    if fmt = "Restarting in %d seconds...\n" then v :: countdown es else countdown es
  | _ :: es => countdown es

/-- The feature part of the chip descriptor line (source lines 36-42): the four capability
tags passed for the conversions `%s%s%s%s`, joined in order. -/
def feature_part : Event → String
  | Event.printf _ [_, _, Arg.str wifi, Arg.str bt, Arg.str ble, Arg.str ieee] =>
    wifi ++ bt ++ ble ++ ieee
  | _ => ""

/-- Whether an event is the countdown line that prints the counter value `i`. -/
def is_countdown_line (i : Int) (e : Event) : Bool :=
  decide (e = Event.printf "Restarting in %d seconds...\n" [Arg.int i])

/-- Milliseconds spent in the delays of a trace: each tick lasts `portTICK_PERIOD_MS`. -/
def delay_ms (cfg : Config) (trace : List Event) : Nat :=
  (delays trace).sum * cfg.portTICK_PERIOD_MS

/-- Logical state of one pin as the GPIO driver keeps it. -/
structure PinState where
  output : Bool
  level : Nat
  deriving DecidableEq, Repr

/-- Modelled from the spec: the vendor GPIO driver is outside the repository.  A
`gpio_config` call whose bit mask selects the pin puts it in the configured direction; a
`gpio_set_level` call on a pin configured as output makes the given level its logical
state; no other call touches the pin. -/
def gpio_step (pin : Nat) (st : PinState) : Event → PinState
  | Event.gpio_config c =>
    if c.pin_bit_mask.testBit pin then
      { st with output := decide (c.mode = gpio_mode_t.GPIO_MODE_OUTPUT) }
    else st
  | Event.gpio_set_level p l =>
    if p = pin ∧ st.output = true then { st with level := l } else st
  | _ => st

/-- State of a pin after a trace, from the reset state (not an output, level 0). -/
def pin_state (pin : Nat) (trace : List Event) : PinState :=
  trace.foldl (gpio_step pin) { output := false, level := 0 }

/-! ## The loop -/

theorem app_main_loop_neg (cfg : Config) (i : Int) (h : i < 0) : app_main_loop cfg i = [] := by
  rw [app_main_loop, if_neg (by omega)]

theorem app_main_loop_nonneg (cfg : Config) (i : Int) (h : 0 ≤ i) :
    app_main_loop cfg i = loop_body cfg i ++ app_main_loop cfg (i - 1) := by
  rw [app_main_loop, if_pos h]

theorem app_main_loop_zero (cfg : Config) : app_main_loop cfg 0 = loop_body cfg 0 := by
  rw [app_main_loop_nonneg cfg 0 (le_refl 0), app_main_loop_neg cfg (0 - 1) (by decide),
    List.append_nil]

theorem app_main_loop_succ (cfg : Config) (n : Nat) :
    app_main_loop cfg ((n + 1 : Nat) : Int) =
      loop_body cfg ((n + 1 : Nat) : Int) ++ app_main_loop cfg (n : Int) := by
  rw [app_main_loop_nonneg cfg _ (Int.ofNat_nonneg _)]
  congr 2
  push_cast
  ring

/-- The eleven iterations of the loop entered at 10, written out. -/
theorem app_main_loop_ten (cfg : Config) :
    app_main_loop cfg 10 =
      loop_body cfg 10 ++ (loop_body cfg 9 ++ (loop_body cfg 8 ++ (loop_body cfg 7 ++
      (loop_body cfg 6 ++ (loop_body cfg 5 ++ (loop_body cfg 4 ++ (loop_body cfg 3 ++
      (loop_body cfg 2 ++ (loop_body cfg 1 ++ loop_body cfg 0))))))))) := by
  have h := app_main_loop_succ cfg
  have h9 := h 9
  have h8 := h 8
  have h7 := h 7
  have h6 := h 6
  have h5 := h 5
  have h4 := h 4
  have h3 := h 3
  have h2 := h 2
  have h1 := h 1
  have h0 := h 0
  norm_num at h9 h8 h7 h6 h5 h4 h3 h2 h1 h0
  rw [h9, h8, h7, h6, h5, h4, h3, h2, h1, h0, app_main_loop_zero]

theorem count_on_loop (cfg : Config) (n : Nat) :
    (app_main_loop cfg (n : Int)).count (Event.gpio_set_level NET_LED 1) = n + 1 := by
  induction n with
  | zero => simp [app_main_loop_zero, loop_body]
  | succ k ih => rw [app_main_loop_succ, List.count_append, ih]; simp [loop_body]; omega

theorem count_off_loop (cfg : Config) (n : Nat) :
    (app_main_loop cfg (n : Int)).count (Event.gpio_set_level NET_LED 0) = n + 1 := by
  induction n with
  | zero => simp [app_main_loop_zero, loop_body]
  | succ k ih => rw [app_main_loop_succ, List.count_append, ih]; simp [loop_body]; omega

/-! ## The two paths of `app_main` -/

theorem app_main_ok (cfg : Config) (env : Env) (h : env.flash_err = cfg.ESP_OK) :
    app_main cfg env =
      app_main_startup cfg env ++ (app_main_report cfg env ++ app_main_loop cfg 10 ++
        [Event.printf "Restarting now.\n" [], Event.fflush, Event.esp_restart]) := by
  unfold app_main
  rw [if_neg (not_not.mpr h)]

theorem app_main_fail (cfg : Config) (env : Env) (h : env.flash_err ≠ cfg.ESP_OK) :
    app_main cfg env = app_main_startup cfg env ++ [Event.printf "Get flash size failed" []] := by
  unfold app_main
  rw [if_pos h]

/-! ## Observations distribute over concatenation -/

theorem writes_append (a b : List Event) : writes (a ++ b) = writes a ++ writes b := by
  induction a with
  | nil => rfl
  | cons e es ih => cases e <;> simp [writes, ih]

theorem delays_append (a b : List Event) : delays (a ++ b) = delays a ++ delays b := by
  induction a with
  | nil => rfl
  | cons e es ih => cases e <;> simp [delays, ih]

theorem countdown_append (a b : List Event) :
    countdown (a ++ b) = countdown a ++ countdown b := by
  induction a with
  | nil => rfl
  | cons e es ih =>
    cases e with
    | printf fmt args =>
      match args with
      | [] => simp [countdown, ih]
      | [Arg.int v] =>
        by_cases hf : fmt = "Restarting in %d seconds...\n" <;> simp [countdown, ih, hf]
      | [Arg.str _] => simp [countdown, ih]
      | [Arg.unsigned _] => simp [countdown, ih]
      | [Arg.uint32 _] => simp [countdown, ih]
      | _ :: _ :: _ => simp [countdown, ih]
    | _ => simp [countdown, ih]

/-! ## Facts about the parts of the trace -/

theorem writes_startup (cfg : Config) (env : Env) : writes (app_main_startup cfg env) = [] := by
  simp [app_main_startup, writes]

theorem writes_report (cfg : Config) (env : Env) : writes (app_main_report cfg env) = [] := by
  simp [app_main_report, writes]

theorem delays_startup (cfg : Config) (env : Env) : delays (app_main_startup cfg env) = [] := by
  simp [app_main_startup, delays]

theorem delays_report (cfg : Config) (env : Env) : delays (app_main_report cfg env) = [] := by
  simp [app_main_report, delays]

theorem countdown_startup (cfg : Config) (env : Env) :
    countdown (app_main_startup cfg env) = [] := by
  simp [app_main_startup, countdown]

theorem countdown_report (cfg : Config) (env : Env) :
    countdown (app_main_report cfg env) = [] := by
  simp [app_main_report, countdown, PRIu32]

theorem writes_loop_body (cfg : Config) (i : Int) :
    writes (loop_body cfg i) = [(NET_LED, 1), (NET_LED, 0)] := by
  simp [loop_body, writes]

theorem countdown_loop_body (cfg : Config) (i : Int) : countdown (loop_body cfg i) = [i] := by
  simp [loop_body, countdown]

theorem u32_delay (p : Nat) : u32 (500 / p) = 500 / p := by
  have h : 500 / p ≤ 500 := Nat.div_le_self 500 p
  unfold u32
  exact Nat.mod_eq_of_lt (by omega)

theorem delays_loop_body (cfg : Config) (i : Int) :
    delays (loop_body cfg i) = [500 / cfg.portTICK_PERIOD_MS, 500 / cfg.portTICK_PERIOD_MS] := by
  simp [loop_body, delays, u32_delay]

theorem not_mem_loop (cfg : Config) (e : Event) (n : Nat)
    (h : ∀ i : Int, e ∉ loop_body cfg i) : e ∉ app_main_loop cfg (n : Int) := by
  induction n with
  | zero => simpa [app_main_loop_zero] using h 0
  | succ k ih =>
    rw [app_main_loop_succ, List.mem_append]
    exact fun hm => hm.elim (h _) ih

theorem restart_not_mem_loop (cfg : Config) : Event.esp_restart ∉ app_main_loop cfg 10 :=
  not_mem_loop cfg Event.esp_restart 10 (fun i => by simp [loop_body])

/-! ## Claims -/

/-- C1: on the path where the flash-size query succeeds the loop body runs exactly 11
times: the trace of `app_main` holds exactly 11 calls `gpio_set_level(NET_LED, 1)` and
exactly 11 calls `gpio_set_level(NET_LED, 0)`, no other `gpio_set_level` call, and 11
countdown lines.  More generally the loop entered at a bound `N` makes `N + 1` calls of
each kind. -/
theorem blink_loop_runs_eleven_times (cfg : Config) (env : Env)
    (h : env.flash_err = cfg.ESP_OK) :
    (∀ N : Nat,
      (app_main_loop cfg (N : Int)).count (Event.gpio_set_level NET_LED 1) = N + 1 ∧
      (app_main_loop cfg (N : Int)).count (Event.gpio_set_level NET_LED 0) = N + 1) ∧
    (app_main cfg env).count (Event.gpio_set_level NET_LED 1) = 11 ∧
    (app_main cfg env).count (Event.gpio_set_level NET_LED 0) = 11 ∧
    (writes (app_main cfg env)).length = 22 ∧
    (countdown (app_main cfg env)).length = 11 := by
  have h1 := count_on_loop cfg 10
  have h0 := count_off_loop cfg 10
  norm_num at h1 h0
  refine ⟨fun N => ⟨count_on_loop cfg N, count_off_loop cfg N⟩, ?_, ?_, ?_, ?_⟩
  · rw [app_main_ok cfg env h]
    simp [List.count_append, h1, app_main_startup, app_main_report]
  · rw [app_main_ok cfg env h]
    simp [List.count_append, h0, app_main_startup, app_main_report]
  · rw [app_main_ok cfg env h]
    simp [writes_append, writes_startup, writes_report, app_main_loop_ten, writes_loop_body,
      writes]
  · rw [app_main_ok cfg env h]
    simp [countdown_append, countdown_startup, countdown_report, app_main_loop_ten,
      countdown_loop_body, countdown]

/-- Witness of C1 at the sample configuration and environment. -/
theorem blink_loop_runs_eleven_times_witness :
    sample_env.flash_err = sample_config.ESP_OK ∧
    ((∀ N : Nat,
      (app_main_loop sample_config (N : Int)).count (Event.gpio_set_level NET_LED 1) = N + 1 ∧
      (app_main_loop sample_config (N : Int)).count (Event.gpio_set_level NET_LED 0) = N + 1) ∧
    (app_main sample_config sample_env).count (Event.gpio_set_level NET_LED 1) = 11 ∧
    (app_main sample_config sample_env).count (Event.gpio_set_level NET_LED 0) = 11 ∧
    (writes (app_main sample_config sample_env)).length = 22 ∧
    (countdown (app_main sample_config sample_env)).length = 11) :=
  ⟨rfl, blink_loop_runs_eleven_times sample_config sample_env rfl⟩

/-- C2: whenever the flash-size query returns a status other than `ESP_OK`, the trace
from the query on is the query followed by the single failure message, whose text is
"Get flash size failed"; the whole trace holds no `gpio_set_level` call, no delay, no
countdown line, no flush and no restart. -/
theorem flash_failure_aborts (cfg : Config) (env : Env) (h : env.flash_err ≠ cfg.ESP_OK) :
    (app_main cfg env).dropWhile (fun e => decide (e ≠ Event.esp_flash_get_size)) =
      [Event.esp_flash_get_size, Event.printf "Get flash size failed" []] ∧
    (Event.printf "Get flash size failed" []).text = some "Get flash size failed" ∧
    writes (app_main cfg env) = [] ∧
    delays (app_main cfg env) = [] ∧
    countdown (app_main cfg env) = [] ∧
    Event.fflush ∉ app_main cfg env ∧
    Event.esp_restart ∉ app_main cfg env := by
  rw [app_main_fail cfg env h]
  refine ⟨?_, ?_, ?_, ?_, ?_, ?_, ?_⟩
  · simp [app_main_startup, List.dropWhile]
  · decide
  · simp [writes_append, writes_startup, writes]
  · simp [delays_append, delays_startup, delays]
  · simp [countdown_append, countdown_startup, countdown]
  · simp [app_main_startup]
  · simp [app_main_startup]

/-- Witness of C2 at the sample configuration, with a failing flash query. -/
theorem flash_failure_aborts_witness :
    sample_env_fail.flash_err ≠ sample_config.ESP_OK ∧
    ((app_main sample_config sample_env_fail).dropWhile
        (fun e => decide (e ≠ Event.esp_flash_get_size)) =
      [Event.esp_flash_get_size, Event.printf "Get flash size failed" []] ∧
    (Event.printf "Get flash size failed" []).text = some "Get flash size failed" ∧
    writes (app_main sample_config sample_env_fail) = [] ∧
    delays (app_main sample_config sample_env_fail) = [] ∧
    countdown (app_main sample_config sample_env_fail) = [] ∧
    Event.fflush ∉ app_main sample_config sample_env_fail ∧
    Event.esp_restart ∉ app_main sample_config sample_env_fail) :=
  ⟨by decide, flash_failure_aborts sample_config sample_env_fail (by decide)⟩

/-- C6: on the success path the counter values printed by the countdown line are, in
order, 10, 9, ..., 1, 0: the first is 10, each is one less than the one before, the last
is 0 and none is negative. -/
theorem countdown_ten_to_zero (cfg : Config) (env : Env) (h : env.flash_err = cfg.ESP_OK) :
    countdown (app_main cfg env) = [10, 9, 8, 7, 6, 5, 4, 3, 2, 1, 0] ∧
    List.Chain' (fun a b => b = a - 1) (countdown (app_main cfg env)) ∧
    (∀ v ∈ countdown (app_main cfg env), 0 ≤ v ∧ v ≤ 10) ∧
    (countdown (app_main cfg env)).head? = some 10 ∧
    (countdown (app_main cfg env)).getLast? = some 0 := by
  have hc : countdown (app_main cfg env) = [10, 9, 8, 7, 6, 5, 4, 3, 2, 1, 0] := by
    rw [app_main_ok cfg env h]
    simp [countdown_append, countdown_startup, countdown_report, app_main_loop_ten,
      countdown_loop_body, countdown]
  rw [hc]
  refine ⟨rfl, by simp, by decide, rfl, rfl⟩

/-- Witness of C6 at the sample configuration and environment. -/
theorem countdown_ten_to_zero_witness :
    sample_env.flash_err = sample_config.ESP_OK ∧
    (countdown (app_main sample_config sample_env) = [10, 9, 8, 7, 6, 5, 4, 3, 2, 1, 0] ∧
    List.Chain' (fun a b => b = a - 1) (countdown (app_main sample_config sample_env)) ∧
    (∀ v ∈ countdown (app_main sample_config sample_env), 0 ≤ v ∧ v ≤ 10) ∧
    (countdown (app_main sample_config sample_env)).head? = some 10 ∧
    (countdown (app_main sample_config sample_env)).getLast? = some 0) :=
  ⟨rfl, countdown_ten_to_zero sample_config sample_env rfl⟩

/-- C8: `esp_restart` is called if and only if the flash-size query returns `ESP_OK`.
When it is called it is called once, as the last call of the trace, after the whole loop
entered at 10, then the message "Restarting now.", then the flush, in that order, and
nothing before the loop writes the pin, delays or restarts.  Otherwise the trace stops
partway: it is the failure message after a proper initial part of the full sequence. -/
theorem restart_iff_flash_ok (cfg : Config) (env : Env) :
    (Event.esp_restart ∈ app_main cfg env ↔ env.flash_err = cfg.ESP_OK) ∧
    (env.flash_err = cfg.ESP_OK →
      (app_main cfg env).count Event.esp_restart = 1 ∧
      (app_main cfg env).getLast? = some Event.esp_restart ∧
      app_main cfg env =
        (app_main_startup cfg env ++ app_main_report cfg env) ++ app_main_loop cfg 10 ++
          [Event.printf "Restarting now.\n" [], Event.fflush, Event.esp_restart] ∧
      writes (app_main_startup cfg env ++ app_main_report cfg env) = [] ∧
      delays (app_main_startup cfg env ++ app_main_report cfg env) = [] ∧
      Event.esp_restart ∉ app_main_startup cfg env ++ app_main_report cfg env) ∧
    (env.flash_err ≠ cfg.ESP_OK →
      ∃ rest, rest ≠ [] ∧
        app_main cfg env = app_main_startup cfg env ++ [Event.printf "Get flash size failed" []] ∧
        app_main cfg { env with flash_err := cfg.ESP_OK } = app_main_startup cfg env ++ rest) := by
  have hpre : Event.esp_restart ∉ app_main_startup cfg env ++ app_main_report cfg env := by
    simp [app_main_startup, app_main_report]
  refine ⟨?_, ?_, ?_⟩
  · by_cases h : env.flash_err = cfg.ESP_OK
    · rw [app_main_ok cfg env h]
      simp [h]
    · rw [app_main_fail cfg env h]
      simp [h, app_main_startup]
  · intro h
    have hform : app_main cfg env =
        (app_main_startup cfg env ++ app_main_report cfg env) ++ app_main_loop cfg 10 ++
          [Event.printf "Restarting now.\n" [], Event.fflush, Event.esp_restart] := by
      rw [app_main_ok cfg env h]
      simp only [List.append_assoc]
    refine ⟨?_, ?_, hform, ?_, ?_, hpre⟩
    · rw [hform, List.count_append, List.count_append,
        List.count_eq_zero_of_not_mem hpre,
        List.count_eq_zero_of_not_mem (restart_not_mem_loop cfg)]
      simp
    · rw [hform]
      simp
    · simp [writes_append, writes_startup, writes_report]
    · simp [delays_append, delays_startup, delays_report]
  · intro h
    refine ⟨app_main_report cfg env ++ app_main_loop cfg 10 ++
      [Event.printf "Restarting now.\n" [], Event.fflush, Event.esp_restart], by simp,
      app_main_fail cfg env h, ?_⟩
    rw [app_main_ok cfg _ rfl]
    rfl

/-! ## The pin along the trace -/

theorem loop_split (cfg : Config) (n i : Nat) (hi : i ≤ n) :
    ∃ mid, app_main_loop cfg (n : Int) =
        mid ++ loop_body cfg (i : Int) ++ app_main_loop cfg ((i : Int) - 1) ∧
      ∀ e ∈ mid, ∃ j : Int, e ∈ loop_body cfg j := by
  induction n with
  | zero =>
    obtain rfl : i = 0 := by omega
    exact ⟨[], by rw [app_main_loop_nonneg cfg _ (Int.ofNat_nonneg 0)]; rfl, by simp⟩
  | succ k ih =>
    by_cases hk : i = k + 1
    · subst hk
      exact ⟨[], by rw [app_main_loop_nonneg cfg _ (Int.ofNat_nonneg _)]; rfl, by simp⟩
    · obtain ⟨mid, hmid, hin⟩ := ih (by omega)
      refine ⟨loop_body cfg ((k + 1 : Nat) : Int) ++ mid, ?_, ?_⟩
      · rw [app_main_loop_succ, hmid]
        simp only [List.append_assoc]
      · intro e he
        rcases List.mem_append.mp he with he | he
        · exact ⟨_, he⟩
        · exact hin e he

theorem output_stays (pin : Nat) (trace : List Event) (st : PinState)
    (hst : st.output = true) (hno : ∀ e ∈ trace, ∀ c, e ≠ Event.gpio_config c) :
    (trace.foldl (gpio_step pin) st).output = true := by
  induction trace generalizing st with
  | nil => exact hst
  | cons e es ih =>
    rw [List.foldl_cons]
    apply ih
    · cases e with
      | gpio_config c => exact absurd rfl (hno _ (List.mem_cons_self _ _) c)
      | gpio_set_level p l =>
        show (if p = pin ∧ st.output = true then { st with level := l } else st).output = true
        split
        · exact hst
        · exact hst
      | _ => simpa [gpio_step] using hst
    · exact fun e he c => hno e (List.mem_cons_of_mem _ he) c

theorem pin_state_startup (cfg : Config) (env : Env) :
    (pin_state NET_LED (app_main_startup cfg env)).output = true := by
  have hbit : (u64 (1 <<< NET_LED)).testBit NET_LED = true := by decide
  simp [pin_state, app_main_startup, gpio_step, hbit]

theorem pin_state_body (cfg : Config) (pre : List Event) (i : Int)
    (hpre : (pin_state NET_LED pre).output = true) :
    pin_state NET_LED (pre ++ (loop_body cfg i).take 2) = { output := true, level := 1 } ∧
    pin_state NET_LED (pre ++ loop_body cfg i) = { output := true, level := 0 } := by
  unfold pin_state at hpre ⊢
  rw [List.foldl_append, List.foldl_append]
  generalize List.foldl (gpio_step NET_LED) { output := false, level := 0 } pre = s at hpre ⊢
  obtain ⟨o, l⟩ := s
  simp only at hpre
  subst hpre
  simp [loop_body, gpio_step]

theorem pin_state_before_loop (cfg : Config) (env : Env) (mid : List Event)
    (hmid : ∀ e ∈ mid, ∃ j : Int, e ∈ loop_body cfg j) :
    (pin_state NET_LED (app_main_startup cfg env ++ app_main_report cfg env ++ mid)).output
      = true := by
  unfold pin_state
  rw [List.foldl_append, List.foldl_append]
  apply output_stays
  · apply output_stays
    · exact pin_state_startup cfg env
    · intro e he c
      simp [app_main_report] at he
      rcases he with rfl | rfl | rfl <;> simp
  · intro e he c hc
    obtain ⟨j, hj⟩ := hmid e he
    subst hc
    simp [loop_body] at hj

theorem write_then_delay_loop (cfg : Config) (n : Nat) (tail : List Event) (k p l : Nat)
    (hk : (app_main_loop cfg (n : Int) ++ tail)[k]? = some (Event.gpio_set_level p l))
    (htail : ∀ j, tail[j]? = some (Event.gpio_set_level p l) →
      tail[j + 1]? = some (Event.vTaskDelay (500 / cfg.portTICK_PERIOD_MS))) :
    (app_main_loop cfg (n : Int) ++ tail)[k + 1]? =
      some (Event.vTaskDelay (500 / cfg.portTICK_PERIOD_MS)) := by
  induction n generalizing k with
  | zero =>
    rw [Nat.cast_zero, app_main_loop_zero] at hk ⊢
    simp only [loop_body, List.cons_append, List.nil_append, u32_delay] at hk ⊢
    match k with
    | 0 => simp at hk
    | 1 => simp
    | 2 => simp at hk
    | 3 => simp
    | 4 => simp at hk
    | j + 5 =>
      simp only [List.getElem?_cons_succ] at hk ⊢
      exact htail j hk
  | succ m ih =>
    rw [app_main_loop_succ] at hk ⊢
    simp only [loop_body, List.cons_append, List.nil_append, u32_delay] at hk ⊢
    match k with
    | 0 => simp at hk
    | 1 => simp
    | 2 => simp at hk
    | 3 => simp
    | 4 => simp at hk
    | j + 5 =>
      simp only [List.getElem?_cons_succ] at hk ⊢
      exact ih j hk

theorem write_then_delay (cfg : Config) (env : Env) (h : env.flash_err = cfg.ESP_OK)
    (k p l : Nat) (hk : (app_main cfg env)[k]? = some (Event.gpio_set_level p l)) :
    (app_main cfg env)[k + 1]? = some (Event.vTaskDelay (500 / cfg.portTICK_PERIOD_MS)) := by
  rw [app_main_ok cfg env h] at hk ⊢
  simp only [app_main_startup, app_main_report, List.cons_append, List.nil_append,
    List.append_assoc] at hk ⊢
  match k with
  | 0 => simp at hk
  | 1 => simp at hk
  | 2 => simp at hk
  | 3 => simp at hk
  | 4 => simp at hk
  | 5 => simp at hk
  | 6 => simp at hk
  | 7 => simp at hk
  | 8 => simp at hk
  | j + 9 =>
    simp only [List.getElem?_cons_succ] at hk ⊢
    refine write_then_delay_loop cfg 10 _ j p l hk ?_
    intro i hi
    match i with
    | 0 => simp at hi
    | 1 => simp at hi
    | 2 => simp at hi
    | i + 3 => simp at hi

/-- C7: on the success path the levels written to the pin are 1, 0 repeated 11 times, all
on `NET_LED`; every `gpio_set_level` call is directly followed by a delay of
`500 / portTICK_PERIOD_MS` ticks; every iteration of the loop occurs in the trace, the
pin is an output at level 1 after its first write and at level 0 at its end; and the pin
is an output at level 0 when `esp_restart`, the last call, is made. -/
theorem pin_alternates (cfg : Config) (env : Env) (h : env.flash_err = cfg.ESP_OK) :
    writes (app_main cfg env) = (List.replicate 11 [(NET_LED, 1), (NET_LED, 0)]).flatten ∧
    (∀ (k p l : Nat), (app_main cfg env)[k]? = some (Event.gpio_set_level p l) →
      (app_main cfg env)[k + 1]? = some (Event.vTaskDelay (500 / cfg.portTICK_PERIOD_MS))) ∧
    (∀ i : Nat, i ≤ 10 → ∃ pre suf,
      app_main cfg env = pre ++ loop_body cfg (i : Int) ++ suf ∧
      pin_state NET_LED (pre ++ (loop_body cfg (i : Int)).take 2) =
        { output := true, level := 1 } ∧
      pin_state NET_LED (pre ++ loop_body cfg (i : Int)) = { output := true, level := 0 }) ∧
    (app_main cfg env).getLast? = some Event.esp_restart ∧
    pin_state NET_LED (app_main cfg env).dropLast = { output := true, level := 0 } := by
  refine ⟨?_, write_then_delay cfg env h, ?_, ?_, ?_⟩
  · rw [app_main_ok cfg env h]
    simp [writes_append, writes_startup, writes_report, app_main_loop_ten, writes_loop_body,
      writes, List.replicate]
  · intro i hi
    obtain ⟨mid, hmid, hin⟩ := loop_split cfg 10 i hi
    refine ⟨app_main_startup cfg env ++ app_main_report cfg env ++ mid,
      app_main_loop cfg ((i : Int) - 1) ++
        [Event.printf "Restarting now.\n" [], Event.fflush, Event.esp_restart], ?_, ?_⟩
    · rw [app_main_ok cfg env h]
      have hmid' : app_main_loop cfg 10 =
          mid ++ loop_body cfg (i : Int) ++ app_main_loop cfg ((i : Int) - 1) := hmid
      rw [hmid']
      simp only [List.append_assoc]
    · exact pin_state_body cfg _ _ (pin_state_before_loop cfg env mid hin)
  · rw [app_main_ok cfg env h]
    simp
  · obtain ⟨mid, hmid, hin⟩ := loop_split cfg 10 0 (by omega)
    have hmid' : app_main_loop cfg 10 = mid ++ loop_body cfg 0 := by
      have h0 : app_main_loop cfg 10 =
          mid ++ loop_body cfg ((0 : Nat) : Int) ++ app_main_loop cfg (((0 : Nat) : Int) - 1) :=
        hmid
      rw [h0, app_main_loop_neg cfg _ (by decide), List.append_nil]
      rfl
    have hdrop : (app_main cfg env).dropLast =
        (app_main_startup cfg env ++ app_main_report cfg env ++ mid ++ loop_body cfg 0) ++
          [Event.printf "Restarting now.\n" [], Event.fflush] := by
      rw [app_main_ok cfg env h, hmid']
      have e : ∀ (a : List Event) (x y z : Event),
          (a ++ [x, y, z]).dropLast = a ++ [x, y] := by
        intro a x y z
        rw [show a ++ [x, y, z] = (a ++ [x, y]) ++ [z] by simp, List.dropLast_concat]
      rw [← e _ _ _ Event.esp_restart]
      simp only [List.append_assoc]
    rw [hdrop]
    have hb := (pin_state_body cfg _ 0 (pin_state_before_loop cfg env mid hin)).2
    unfold pin_state at hb ⊢
    rw [List.foldl_append, hb]
    simp [gpio_step]

/-- Witness of C7 at the sample configuration and environment. -/
theorem pin_alternates_witness :
    sample_env.flash_err = sample_config.ESP_OK ∧
    (writes (app_main sample_config sample_env) =
      (List.replicate 11 [(NET_LED, 1), (NET_LED, 0)]).flatten ∧
    (∀ (k p l : Nat), (app_main sample_config sample_env)[k]? = some (Event.gpio_set_level p l) →
      (app_main sample_config sample_env)[k + 1]? =
        some (Event.vTaskDelay (500 / sample_config.portTICK_PERIOD_MS))) ∧
    (∀ i : Nat, i ≤ 10 → ∃ pre suf,
      app_main sample_config sample_env = pre ++ loop_body sample_config (i : Int) ++ suf ∧
      pin_state NET_LED (pre ++ (loop_body sample_config (i : Int)).take 2) =
        { output := true, level := 1 } ∧
      pin_state NET_LED (pre ++ loop_body sample_config (i : Int)) =
        { output := true, level := 0 }) ∧
    (app_main sample_config sample_env).getLast? = some Event.esp_restart ∧
    pin_state NET_LED (app_main sample_config sample_env).dropLast =
      { output := true, level := 0 }) :=
  ⟨rfl, pin_alternates sample_config sample_env rfl⟩

/-! ## Delays -/

theorem delays_loop (cfg : Config) (n : Nat) :
    delays (app_main_loop cfg (n : Int)) =
      List.replicate (2 * (n + 1)) (500 / cfg.portTICK_PERIOD_MS) := by
  induction n with
  | zero => simp [app_main_loop_zero, delays_loop_body, List.replicate]
  | succ k ih =>
    rw [app_main_loop_succ, delays_append, ih, delays_loop_body,
      show 2 * (k + 1 + 1) = 2 * (k + 1) + 1 + 1 by ring]
    rfl

theorem dropWhile_loop (cfg : Config) (n i : Nat) (hi : i ≤ n) (tail : List Event) :
    (app_main_loop cfg (n : Int) ++ tail).dropWhile (fun e => !is_countdown_line (i : Int) e) =
      app_main_loop cfg (i : Int) ++ tail := by
  induction n with
  | zero =>
    obtain rfl : i = 0 := by omega
    simp [app_main_loop_zero, loop_body, List.dropWhile, is_countdown_line]
  | succ k ih =>
    by_cases hk : i = k + 1
    · subst hk
      rw [app_main_loop_succ]
      simp [loop_body, List.dropWhile, is_countdown_line]
    · have hne : ((k : Int) + 1 = (i : Int)) = False := by
        simp only [eq_iff_iff, iff_false]
        omega
      rw [app_main_loop_succ]
      simp only [loop_body, List.cons_append, List.nil_append]
      simp [List.dropWhile, is_countdown_line, hne]
      exact ih (by omega)

theorem dropWhile_app_main (cfg : Config) (env : Env) (h : env.flash_err = cfg.ESP_OK)
    (i : Nat) (hi : i ≤ 10) :
    (app_main cfg env).dropWhile (fun e => !is_countdown_line (i : Int) e) =
      app_main_loop cfg (i : Int) ++
        [Event.printf "Restarting now.\n" [], Event.fflush, Event.esp_restart] := by
  rw [app_main_ok cfg env h, ← dropWhile_loop cfg 10 i hi]
  simp [app_main_startup, app_main_report, List.dropWhile, is_countdown_line, PRIu32]

theorem tick_ms_le (p : Nat) : 500 / p * p ≤ 500 := Nat.div_mul_le_self 500 p

theorem tick_ms_eq_iff (p : Nat) : 500 / p * p = 500 ↔ p ∣ 500 :=
  ⟨fun h => Dvd.intro_left _ h, fun h => Nat.div_mul_cancel h⟩

/-- C10: on the success path `app_main` makes exactly 22 delays, each of
`500 / portTICK_PERIOD_MS` ticks (integer division), so the delays total
`22 * (500 / P) * P` milliseconds for a tick period of `P` ms.  The total is at most
11000, equals 11000 exactly when `P` divides 500 and is 0 when `P > 500`.  When `P`
divides 500, the delays from the countdown line that prints `i` to the restart total
`(i + 1) * 1000` milliseconds, not `i * 1000`, for every `i` from 10 down to 0. -/
theorem countdown_timing (cfg : Config) (env : Env) (h : env.flash_err = cfg.ESP_OK) :
    delays (app_main cfg env) = List.replicate 22 (500 / cfg.portTICK_PERIOD_MS) ∧
    delay_ms cfg (app_main cfg env) =
      22 * (500 / cfg.portTICK_PERIOD_MS) * cfg.portTICK_PERIOD_MS ∧
    delay_ms cfg (app_main cfg env) ≤ 11000 ∧
    (delay_ms cfg (app_main cfg env) = 11000 ↔ cfg.portTICK_PERIOD_MS ∣ 500) ∧
    (500 < cfg.portTICK_PERIOD_MS → delay_ms cfg (app_main cfg env) = 0) ∧
    (cfg.portTICK_PERIOD_MS ∣ 500 → ∀ i : Nat, i ≤ 10 →
      ((app_main cfg env).dropWhile (fun e => !is_countdown_line (i : Int) e)).head? =
        some (Event.printf "Restarting in %d seconds...\n" [Arg.int (i : Int)]) ∧
      ((app_main cfg env).dropWhile (fun e => !is_countdown_line (i : Int) e)).getLast? =
        some Event.esp_restart ∧
      delay_ms cfg ((app_main cfg env).dropWhile (fun e => !is_countdown_line (i : Int) e)) =
        (i + 1) * 1000 ∧
      delay_ms cfg ((app_main cfg env).dropWhile (fun e => !is_countdown_line (i : Int) e)) ≠
        i * 1000) := by
  have hd : delays (app_main cfg env) = List.replicate 22 (500 / cfg.portTICK_PERIOD_MS) := by
    rw [app_main_ok cfg env h]
    have hl := delays_loop cfg 10
    norm_num at hl
    simp [delays_append, delays_startup, delays_report, hl, delays]
  have hms : delay_ms cfg (app_main cfg env) =
      22 * (500 / cfg.portTICK_PERIOD_MS) * cfg.portTICK_PERIOD_MS := by
    unfold delay_ms
    rw [hd, List.sum_replicate, smul_eq_mul]
  have hle := tick_ms_le cfg.portTICK_PERIOD_MS
  have hiff := tick_ms_eq_iff cfg.portTICK_PERIOD_MS
  refine ⟨hd, hms, ?_, ?_, ?_, ?_⟩
  · rw [hms, Nat.mul_assoc]
    omega
  · rw [hms, Nat.mul_assoc, ← hiff]
    omega
  · intro hp
    rw [hms, Nat.div_eq_of_lt hp]
    simp
  · intro hdvd i hi
    have heq := hiff.mpr hdvd
    have hrem : delay_ms cfg ((app_main cfg env).dropWhile
        (fun e => !is_countdown_line (i : Int) e)) = (i + 1) * 1000 := by
      unfold delay_ms
      rw [dropWhile_app_main cfg env h i hi, delays_append, delays_loop]
      simp only [delays, List.append_nil, List.sum_replicate, smul_eq_mul]
      rw [Nat.mul_assoc, heq]
      ring
    refine ⟨?_, ?_, hrem, ?_⟩
    · rw [dropWhile_app_main cfg env h i hi, app_main_loop_nonneg cfg _ (Int.ofNat_nonneg i)]
      simp [loop_body]
    · rw [dropWhile_app_main cfg env h i hi]
      simp
    · rw [hrem]
      omega

/-- Witness of C10 at the sample configuration (tick period 10 ms) and environment. -/
theorem countdown_timing_witness :
    sample_env.flash_err = sample_config.ESP_OK ∧
    (delays (app_main sample_config sample_env) =
      List.replicate 22 (500 / sample_config.portTICK_PERIOD_MS) ∧
    delay_ms sample_config (app_main sample_config sample_env) =
      22 * (500 / sample_config.portTICK_PERIOD_MS) * sample_config.portTICK_PERIOD_MS ∧
    delay_ms sample_config (app_main sample_config sample_env) ≤ 11000 ∧
    (delay_ms sample_config (app_main sample_config sample_env) = 11000 ↔
      sample_config.portTICK_PERIOD_MS ∣ 500) ∧
    (500 < sample_config.portTICK_PERIOD_MS →
      delay_ms sample_config (app_main sample_config sample_env) = 0) ∧
    (sample_config.portTICK_PERIOD_MS ∣ 500 → ∀ i : Nat, i ≤ 10 →
      ((app_main sample_config sample_env).dropWhile
        (fun e => !is_countdown_line (i : Int) e)).head? =
        some (Event.printf "Restarting in %d seconds...\n" [Arg.int (i : Int)]) ∧
      ((app_main sample_config sample_env).dropWhile
        (fun e => !is_countdown_line (i : Int) e)).getLast? = some Event.esp_restart ∧
      delay_ms sample_config ((app_main sample_config sample_env).dropWhile
        (fun e => !is_countdown_line (i : Int) e)) = (i + 1) * 1000 ∧
      delay_ms sample_config ((app_main sample_config sample_env).dropWhile
        (fun e => !is_countdown_line (i : Int) e)) ≠ i * 1000)) :=
  ⟨rfl, countdown_timing sample_config sample_env rfl⟩

/-! ## Printed text -/

theorem toInt32_of_lt (x : Nat) (h : x < 2 ^ 31) : toInt32 x = ((x : Nat) : Int) := by
  have hx : x % 2 ^ 32 = x := Nat.mod_eq_of_lt (by omega)
  unfold toInt32
  rw [hx, if_pos h]

theorem u32_of_lt (x : Nat) (h : x < 2 ^ 32) : u32 x = x := Nat.mod_eq_of_lt h

theorem conv_d_unsigned (x : Nat) (h : x < 2 ^ 31) :
    conv_d (Arg.unsigned x) = some (toString x).toList := by
  show some (toString (toInt32 x)).toList = some (toString x).toList
  rw [toInt32_of_lt x h]
  rfl

theorem conv_d_int_natCast (x : Nat) :
    conv_d (Arg.int ((x : Nat) : Int)) = some (toString x).toList := rfl

theorem text_revision (a b : Nat) (ha : a < 2 ^ 31) (hb : b < 2 ^ 31) :
    (Event.printf "silicon revision v%d.%d, " [Arg.unsigned a, Arg.unsigned b]).text =
      some ("silicon revision v" ++ toString a ++ "." ++ toString b ++ ", ") := by
  simp only [Event.text, String.toList, format, conv_d_unsigned a ha, conv_d_unsigned b hb,
    Option.bind_eq_bind, Option.some_bind, Option.pure_def, Option.map_some',
    bind, pure]
  congr 1
  apply String.ext
  simp [String.data_append]

theorem text_descriptor (t s1 s2 s3 s4 : String) (c : Nat) :
    (Event.printf "This is %s chip with %d CPU core(s), %s%s%s%s, "
      [Arg.str t, Arg.int ((c : Nat) : Int), Arg.str s1, Arg.str s2, Arg.str s3,
        Arg.str s4]).text =
      some ("This is " ++ t ++ " chip with " ++ toString c ++ " CPU core(s), " ++
        (s1 ++ s2 ++ s3 ++ s4) ++ ", ") := by
  simp only [Event.text, String.toList, format, conv_s, conv_d_int_natCast,
    Option.bind_eq_bind, Option.some_bind, Option.pure_def, Option.map_some',
    bind, pure]
  congr 1
  apply String.ext
  simp [String.data_append]

theorem text_flash (m : Nat) (s : String) :
    (Event.printf ("%" ++ PRIu32 ++ "MB %s flash\n") [Arg.uint32 m, Arg.str s]).text =
      some (toString (u32 m) ++ "MB " ++ s ++ " flash\n") := by
  have hf : "%" ++ PRIu32 ++ "MB %s flash\n" = "%luMB %s flash\n" := by decide
  rw [hf]
  simp only [Event.text, String.toList, format, conv_s, conv_lu,
    Option.bind_eq_bind, Option.some_bind, Option.pure_def, Option.map_some',
    bind, pure]
  congr 1
  apply String.ext
  simp [String.data_append]

theorem and_two_pow_ne_zero (n k : Nat) : n &&& 2 ^ k ≠ 0 ↔ n.testBit k = true := by
  rw [Nat.and_two_pow]
  cases n.testBit k <;> simp

theorem getElem?_startup (cfg : Config) (env : Env) (k : Nat) (hk : k < 6) :
    (app_main cfg env)[k]? = (app_main_startup cfg env)[k]? := by
  unfold app_main
  exact List.getElem?_append_left (by simpa [app_main_startup] using hk)

theorem getElem?_report (cfg : Config) (env : Env) (h : env.flash_err = cfg.ESP_OK) :
    (app_main cfg env)[6]? = (app_main_report cfg env)[0]? := by
  rw [app_main_ok cfg env h]
  simp [app_main_startup, app_main_report]

/-- C3: for a byte count below 2^32 returned by a successful flash-size query, the
call made after the query is the flash-size line with the number
`flash_size / 1048576` (integer division, the floor of the quotient) as its first
argument, and its text is that number in decimal followed by "MB". -/
theorem flash_size_in_MB (cfg : Config) (env : Env) (h : env.flash_err = cfg.ESP_OK)
    (hsize : env.flash_size < 2 ^ 32) :
    ∃ e, (app_main cfg env)[6]? = some e ∧
      e = Event.printf ("%" ++ PRIu32 ++ "MB %s flash\n")
        [ Arg.uint32 (env.flash_size / 1048576),
          Arg.str (if env.chip_info.features &&& cfg.CHIP_FEATURE_EMB_FLASH ≠ 0
            then "embedded" else "external") ] ∧
      e.text = some (toString (env.flash_size / 1048576) ++ "MB " ++
        (if env.chip_info.features &&& cfg.CHIP_FEATURE_EMB_FLASH ≠ 0
          then "embedded" else "external") ++ " flash\n") ∧
      env.flash_size / 1048576 * 1048576 ≤ env.flash_size ∧
      env.flash_size < (env.flash_size / 1048576 + 1) * 1048576 := by
  have hq : u32 (env.flash_size / 1048576) = env.flash_size / 1048576 :=
    u32_of_lt _ (lt_of_le_of_lt (Nat.div_le_self _ _) hsize)
  have hdiv : u32 (1024 * 1024) = 1048576 := by decide
  refine ⟨_, ?_, rfl, ?_, by omega, by omega⟩
  · rw [getElem?_report cfg env h]
    simp only [app_main_report, u32_of_lt _ hsize, hdiv]
    rfl
  · rw [text_flash, hq]

/-- Witness of C3 at the sample configuration and environment (4 MiB of flash). -/
theorem flash_size_in_MB_witness :
    (sample_env.flash_err = sample_config.ESP_OK ∧ sample_env.flash_size < 2 ^ 32) ∧
    ∃ e, (app_main sample_config sample_env)[6]? = some e ∧
      e = Event.printf ("%" ++ PRIu32 ++ "MB %s flash\n")
        [ Arg.uint32 (sample_env.flash_size / 1048576),
          Arg.str (if sample_env.chip_info.features &&& sample_config.CHIP_FEATURE_EMB_FLASH ≠ 0
            then "embedded" else "external") ] ∧
      e.text = some (toString (sample_env.flash_size / 1048576) ++ "MB " ++
        (if sample_env.chip_info.features &&& sample_config.CHIP_FEATURE_EMB_FLASH ≠ 0
          then "embedded" else "external") ++ " flash\n") ∧
      sample_env.flash_size / 1048576 * 1048576 ≤ sample_env.flash_size ∧
      sample_env.flash_size < (sample_env.flash_size / 1048576 + 1) * 1048576 :=
  ⟨⟨rfl, by decide⟩, flash_size_in_MB sample_config sample_env rfl (by decide)⟩

/-- C4: for a revision below 2^32 in the chip-info record, the revision line of the
trace carries `revision / 100` and `revision % 100` and its text is
"silicon revision v<major>.<minor>, " with those two numbers in decimal; the minor
number is below 100 and `major * 100 + minor = revision`. -/
theorem revision_major_minor (cfg : Config) (env : Env)
    (hrev : env.chip_info.revision < 2 ^ 32) :
    ∃ e, (app_main cfg env)[4]? = some e ∧
      e = Event.printf "silicon revision v%d.%d, "
        [Arg.unsigned (env.chip_info.revision / 100),
          Arg.unsigned (env.chip_info.revision % 100)] ∧
      e.text = some ("silicon revision v" ++ toString (env.chip_info.revision / 100) ++ "." ++
        toString (env.chip_info.revision % 100) ++ ", ") ∧
      env.chip_info.revision % 100 < 100 ∧
      env.chip_info.revision / 100 * 100 + env.chip_info.revision % 100 =
        env.chip_info.revision := by
  have hmaj : env.chip_info.revision / 100 < 2 ^ 31 := by omega
  have hmin : env.chip_info.revision % 100 < 2 ^ 31 := by omega
  refine ⟨_, ?_, rfl, text_revision _ _ hmaj hmin, by omega, by omega⟩
  rw [getElem?_startup cfg env 4 (by decide)]
  simp only [app_main_startup, u32_of_lt _ (show env.chip_info.revision / 100 < 2 ^ 32 by omega),
    u32_of_lt _ (show env.chip_info.revision % 100 < 2 ^ 32 by omega)]
  rfl

/-- Witness of C4 at the sample configuration and environment (revision 102). -/
theorem revision_major_minor_witness :
    sample_env.chip_info.revision < 2 ^ 32 ∧
    ∃ e, (app_main sample_config sample_env)[4]? = some e ∧
      e = Event.printf "silicon revision v%d.%d, "
        [Arg.unsigned (sample_env.chip_info.revision / 100),
          Arg.unsigned (sample_env.chip_info.revision % 100)] ∧
      e.text = some ("silicon revision v" ++ toString (sample_env.chip_info.revision / 100) ++
        "." ++ toString (sample_env.chip_info.revision % 100) ++ ", ") ∧
      sample_env.chip_info.revision % 100 < 100 ∧
      sample_env.chip_info.revision / 100 * 100 + sample_env.chip_info.revision % 100 =
        sample_env.chip_info.revision :=
  ⟨by decide, revision_major_minor sample_config sample_env (by decide)⟩

/-- C5: end-to-end scenario.  With revision 102 the revision line reads
"silicon revision v1.2, "; with a successful flash query of 4 * 1024 * 1024 bytes the
flash line reads "4MB external flash"; and with a feature bitmask whose BLE bit is set
and whose WiFi, BT, 802.15.4 and embedded-flash bits are clear, the feature part of the
descriptor line is "BLE", which contains "BLE" and none of "WiFi/", "BT" and
", 802.15.4 (Zigbee/Thread)". -/
theorem end_to_end_scenario (cfg : Config) (env : Env)
    (hrev : env.chip_info.revision = 102)
    (hok : env.flash_err = cfg.ESP_OK)
    (hsize : env.flash_size = 4 * 1024 * 1024)
    (hble : env.chip_info.features &&& cfg.CHIP_FEATURE_BLE ≠ 0)
    (hwifi : env.chip_info.features &&& cfg.CHIP_FEATURE_WIFI_BGN = 0)
    (hbt : env.chip_info.features &&& cfg.CHIP_FEATURE_BT = 0)
    (hieee : env.chip_info.features &&& cfg.CHIP_FEATURE_IEEE802154 = 0)
    (hemb : env.chip_info.features &&& cfg.CHIP_FEATURE_EMB_FLASH = 0) :
    ∃ descriptor revision flash,
      (app_main cfg env)[3]? = some descriptor ∧
      (app_main cfg env)[4]? = some revision ∧
      (app_main cfg env)[6]? = some flash ∧
      revision.text = some "silicon revision v1.2, " ∧
      flash.text = some "4MB external flash\n" ∧
      descriptor.text = some ("This is " ++ cfg.CONFIG_IDF_TARGET ++ " chip with " ++
        toString env.chip_info.cores ++ " CPU core(s), " ++ feature_part descriptor ++ ", ") ∧
      feature_part descriptor = "BLE" ∧
      "BLE".toList <:+: (feature_part descriptor).toList ∧
      ¬ "WiFi/".toList <:+: (feature_part descriptor).toList ∧
      ¬ "BT".toList <:+: (feature_part descriptor).toList ∧
      ¬ ", 802.15.4 (Zigbee/Thread)".toList <:+: (feature_part descriptor).toList := by
  have hdesc : (app_main cfg env)[3]? = some
      (Event.printf "This is %s chip with %d CPU core(s), %s%s%s%s, "
        [Arg.str cfg.CONFIG_IDF_TARGET, Arg.int ((env.chip_info.cores : Nat) : Int),
          Arg.str "", Arg.str "", Arg.str "BLE", Arg.str ""]) := by
    rw [getElem?_startup cfg env 3 (by decide)]
    simp [app_main_startup, hble, hwifi, hbt, hieee]
  have hrevision : (app_main cfg env)[4]? = some
      (Event.printf "silicon revision v%d.%d, " [Arg.unsigned 1, Arg.unsigned 2]) := by
    rw [getElem?_startup cfg env 4 (by decide)]
    simp [app_main_startup, hrev, u32]
  have hflash : (app_main cfg env)[6]? = some
      (Event.printf ("%" ++ PRIu32 ++ "MB %s flash\n") [Arg.uint32 4, Arg.str "external"]) := by
    rw [getElem?_report cfg env hok]
    simp [app_main_report, hsize, hemb, u32]
  refine ⟨_, _, _, hdesc, hrevision, hflash, by decide, by decide, ?_, rfl, ?_, ?_, ?_, ?_⟩
  · rw [text_descriptor]
    rfl
  · show "BLE".toList <:+: "BLE".toList
    decide
  · show ¬ "WiFi/".toList <:+: "BLE".toList
    decide
  · show ¬ "BT".toList <:+: "BLE".toList
    decide
  · show ¬ ", 802.15.4 (Zigbee/Thread)".toList <:+: "BLE".toList
    decide

/-- Witness of C5 at the sample configuration and environment. -/
theorem end_to_end_scenario_witness :
    (sample_env.chip_info.revision = 102 ∧
      sample_env.flash_err = sample_config.ESP_OK ∧
      sample_env.flash_size = 4 * 1024 * 1024 ∧
      sample_env.chip_info.features &&& sample_config.CHIP_FEATURE_BLE ≠ 0 ∧
      sample_env.chip_info.features &&& sample_config.CHIP_FEATURE_WIFI_BGN = 0 ∧
      sample_env.chip_info.features &&& sample_config.CHIP_FEATURE_BT = 0 ∧
      sample_env.chip_info.features &&& sample_config.CHIP_FEATURE_IEEE802154 = 0 ∧
      sample_env.chip_info.features &&& sample_config.CHIP_FEATURE_EMB_FLASH = 0) ∧
    ∃ descriptor revision flash,
      (app_main sample_config sample_env)[3]? = some descriptor ∧
      (app_main sample_config sample_env)[4]? = some revision ∧
      (app_main sample_config sample_env)[6]? = some flash ∧
      revision.text = some "silicon revision v1.2, " ∧
      flash.text = some "4MB external flash\n" ∧
      descriptor.text = some ("This is " ++ sample_config.CONFIG_IDF_TARGET ++ " chip with " ++
        toString sample_env.chip_info.cores ++ " CPU core(s), " ++ feature_part descriptor ++
        ", ") ∧
      feature_part descriptor = "BLE" ∧
      "BLE".toList <:+: (feature_part descriptor).toList ∧
      ¬ "WiFi/".toList <:+: (feature_part descriptor).toList ∧
      ¬ "BT".toList <:+: (feature_part descriptor).toList ∧
      ¬ ", 802.15.4 (Zigbee/Thread)".toList <:+: (feature_part descriptor).toList :=
  ⟨⟨rfl, rfl, rfl, by decide, by decide, by decide, by decide, by decide⟩,
    end_to_end_scenario sample_config sample_env rfl rfl rfl (by decide) (by decide)
      (by decide) (by decide) (by decide)⟩

/-- C9: when each feature mask is a single bit, the feature part of the descriptor line
is the concatenation, in this order, of "WiFi/" iff the WiFi bit of the bitmask is set,
"BT" iff the classic-Bluetooth bit is set, "BLE" iff the BLE bit is set and
", 802.15.4 (Zigbee/Thread)" iff the 802.15.4 bit is set, and it is the text printed
between "CPU core(s), " and ", "; on the success path the flash line says "embedded" iff
the embedded-flash bit is set and "external" otherwise. -/
theorem feature_tags (cfg : Config) (env : Env) (kw kb kl ki ke : Nat)
    (hw : cfg.CHIP_FEATURE_WIFI_BGN = 2 ^ kw)
    (hb : cfg.CHIP_FEATURE_BT = 2 ^ kb)
    (hl : cfg.CHIP_FEATURE_BLE = 2 ^ kl)
    (hi : cfg.CHIP_FEATURE_IEEE802154 = 2 ^ ki)
    (he : cfg.CHIP_FEATURE_EMB_FLASH = 2 ^ ke) :
    (∃ descriptor, (app_main cfg env)[3]? = some descriptor ∧
      feature_part descriptor =
        (if env.chip_info.features.testBit kw then "WiFi/" else "") ++
        (if env.chip_info.features.testBit kb then "BT" else "") ++
        (if env.chip_info.features.testBit kl then "BLE" else "") ++
        (if env.chip_info.features.testBit ki then ", 802.15.4 (Zigbee/Thread)" else "") ∧
      descriptor.text = some ("This is " ++ cfg.CONFIG_IDF_TARGET ++ " chip with " ++
        toString env.chip_info.cores ++ " CPU core(s), " ++ feature_part descriptor ++ ", ")) ∧
    (env.flash_err = cfg.ESP_OK →
      ∃ (flash : Event) (size : Nat), (app_main cfg env)[6]? = some flash ∧
        flash.text = some (toString size ++ "MB " ++
          (if env.chip_info.features.testBit ke then "embedded" else "external") ++
          " flash\n")) := by
  have hwb := and_two_pow_ne_zero env.chip_info.features kw
  have hbb := and_two_pow_ne_zero env.chip_info.features kb
  have hlb := and_two_pow_ne_zero env.chip_info.features kl
  have hib := and_two_pow_ne_zero env.chip_info.features ki
  have heb := and_two_pow_ne_zero env.chip_info.features ke
  have hdesc : (app_main cfg env)[3]? = some
      (Event.printf "This is %s chip with %d CPU core(s), %s%s%s%s, "
        [ Arg.str cfg.CONFIG_IDF_TARGET, Arg.int ((env.chip_info.cores : Nat) : Int),
          Arg.str (if env.chip_info.features.testBit kw then "WiFi/" else ""),
          Arg.str (if env.chip_info.features.testBit kb then "BT" else ""),
          Arg.str (if env.chip_info.features.testBit kl then "BLE" else ""),
          Arg.str (if env.chip_info.features.testBit ki
            then ", 802.15.4 (Zigbee/Thread)" else "") ]) := by
    rw [getElem?_startup cfg env 3 (by decide)]
    simp only [app_main_startup, hw, hb, hl, hi, hwb, hbb, hlb, hib]
    rfl
  refine ⟨⟨_, hdesc, rfl, ?_⟩, ?_⟩
  · rw [text_descriptor]
    rfl
  · intro hok
    have hflash : (app_main cfg env)[6]? = some
        (Event.printf ("%" ++ PRIu32 ++ "MB %s flash\n")
          [ Arg.uint32 (u32 env.flash_size / u32 (1024 * 1024)),
            Arg.str (if env.chip_info.features.testBit ke then "embedded" else "external") ]) := by
      rw [getElem?_report cfg env hok]
      simp only [app_main_report, he, heb]
      rfl
    exact ⟨_, _, hflash, text_flash _ _⟩

/-- Witness of C9 at the sample configuration (masks at bits 1, 5, 4, 6 and 0) and
environment. -/
theorem feature_tags_witness :
    (sample_config.CHIP_FEATURE_WIFI_BGN = 2 ^ 1 ∧
      sample_config.CHIP_FEATURE_BT = 2 ^ 5 ∧
      sample_config.CHIP_FEATURE_BLE = 2 ^ 4 ∧
      sample_config.CHIP_FEATURE_IEEE802154 = 2 ^ 6 ∧
      sample_config.CHIP_FEATURE_EMB_FLASH = 2 ^ 0) ∧
    (∃ descriptor, (app_main sample_config sample_env)[3]? = some descriptor ∧
      feature_part descriptor =
        (if sample_env.chip_info.features.testBit 1 then "WiFi/" else "") ++
        (if sample_env.chip_info.features.testBit 5 then "BT" else "") ++
        (if sample_env.chip_info.features.testBit 4 then "BLE" else "") ++
        (if sample_env.chip_info.features.testBit 6 then ", 802.15.4 (Zigbee/Thread)" else "") ∧
      descriptor.text = some ("This is " ++ sample_config.CONFIG_IDF_TARGET ++ " chip with " ++
        toString sample_env.chip_info.cores ++ " CPU core(s), " ++ feature_part descriptor ++
        ", ")) ∧
    (sample_env.flash_err = sample_config.ESP_OK →
      ∃ (flash : Event) (size : Nat), (app_main sample_config sample_env)[6]? = some flash ∧
        flash.text = some (toString size ++ "MB " ++
          (if sample_env.chip_info.features.testBit 0 then "embedded" else "external") ++
          " flash\n")) :=
  ⟨⟨rfl, rfl, rfl, rfl, rfl⟩,
    feature_tags sample_config sample_env 1 5 4 6 0 rfl rfl rfl rfl rfl⟩
end HelloWorld
